import Mathlib

/-!
Shallow embedding of the client-side authentication flows of the
mern-auth-login-Register repository (frontend/src): the login and register
modal submit handlers, the Navbar logout and auth-change listeners, and the
AuthContext provider, together with the pieces of browser/JavaScript
semantics they rely on (UTF-16 string length, the `\S+@\S+\.\S+` email
regular expression, JSON value truthiness, `JSON.stringify`, and the
`localStorage` keys `auth.token` / `auth.user` plus the same-tab
`authChange` event channel).
-/

namespace MernAuth

/-- JavaScript `String.prototype.length`: the number of UTF-16 code units
(code points at or above `0x10000` are surrogate pairs and count as 2). -/
def jsLength (s : String) : Nat :=
  s.data.foldl (fun n c => n + (if c.toNat >= 0x10000 then 2 else 1)) 0

/-- The characters matched by the JavaScript regular-expression class `\s`
(ECMA-262 WhiteSpace plus LineTerminator). -/
def jsWhitespace : List Char :=
  ['\t', '\n', '\x0b', '\x0c', '\r', ' ', '\u00A0', '\u1680',
   '\u2000', '\u2001', '\u2002', '\u2003', '\u2004', '\u2005', '\u2006',
   '\u2007', '\u2008', '\u2009', '\u200A', '\u2028', '\u2029', '\u202F',
   '\u205F', '\u3000', '\uFEFF']

/-- Whether a character is JavaScript whitespace (`\s`). -/
def isJsSpace (c : Char) : Bool := jsWhitespace.contains c

/-- JavaScript `String.prototype.trim()`: strips `\s` characters from both
ends of the string. -/
def jsTrim (s : String) : String :=
  ⟨((s.data.dropWhile isJsSpace).reverse.dropWhile isJsSpace).reverse⟩

/-- `emailRe.test(s)` for the regular expression `/\S+@\S+\.\S+/` used by
every `validate` function in the frontend.  The unanchored pattern matches
iff the string contains a position `i` holding `'@'` and a later position
`j` holding `'.'` such that: the character just before the `'@'` is
non-whitespace, every character strictly between the `'@'` and the `'.'` is
non-whitespace and there is at least one, and the character just after the
`'.'` exists and is non-whitespace. -/
def emailReTest (s : String) : Bool :=
  let cs := s.data
  let n := cs.length
  (List.range n).any fun i =>
    (List.range n).any fun j =>
      decide (1 <= i) && decide (i + 2 <= j) && decide (j + 2 <= n) &&
      (cs.getD i ' ' == '@') && (cs.getD j ' ' == '.') &&
      !(isJsSpace (cs.getD (i - 1) ' ')) &&
      ((List.range n).all fun k =>
        !(decide (i < k) && decide (k < j)) || !(isJsSpace (cs.getD k ' '))) &&
      !(isJsSpace (cs.getD (j + 1) ' '))

/-- JSON values, as produced by `JSON.parse` and consumed by the client.
Numbers are modelled as integers (no claim involves fractional values). -/
inductive Json where
  | null : Json
  | bool : Bool → Json
  | num : Int → Json
  | str : String → Json
  | arr : List Json → Json
  | obj : List (String × Json) → Json

/-- JavaScript truthiness of a JSON value (`undefined` is handled separately
via `Option`). -/
def Json.truthy : Json → Bool
  | .null => false
  | .bool b => b
  | .num n => n != 0
  | .str s => !(s == "")
  | .arr _ => true
  | .obj _ => true

/-- Truthiness of a possibly-`undefined` JSON value (`none` = `undefined`). -/
def jsOptTruthy : Option Json → Bool
  | none => false
  | some j => j.truthy

/-- JavaScript member access `j.key`: defined only on objects, `undefined`
(here `none`) on every other value.  (`null.key` throws; the call sites in
the source either guard with `?.` or are modelled explicitly.) -/
def Json.lookup (j : Json) (key : String) : Option Json :=
  match j with
  | .obj fields => fields.lookup key
  | _ => none

/-- Decimal digits of a natural number, most significant first. -/
def natToChars (n : Nat) : List Char :=
  if h : n < 10 then [Char.ofNat (48 + n)]
  else natToChars (n / 10) ++ [Char.ofNat (48 + n % 10)]
termination_by n
decreasing_by
  exact Nat.div_lt_self (by omega) (by omega)

/-- Decimal rendering of an integer, as a character list. -/
def intToChars (i : Int) : List Char :=
  if i < 0 then '-' :: natToChars (-i).toNat else natToChars i.toNat

/-- JSON string escaping of one character (enough for the values the client
stores: quote, backslash and the common control characters). -/
def escChar (c : Char) : List Char :=
  if c = '"' then ['\\', '"']
  else if c = '\\' then ['\\', '\\']
  else if c = '\n' then ['\\', 'n']
  else if c = '\t' then ['\\', 't']
  else if c = '\r' then ['\\', 'r']
  else [c]

mutual

/-- `JSON.stringify`, producing a character list. -/
def Json.stringifyChars : Json → List Char
  | .null => "null".data
  | .bool true => "true".data
  | .bool false => "false".data
  | .num n => intToChars n
  | .str s => '"' :: (s.data.foldr (fun c acc => escChar c ++ acc) ['"'])
  | .arr xs => '[' :: (Json.stringifyCharsList xs ++ [']'])
  | .obj fs => '\x7b' :: (Json.stringifyCharsFields fs ++ ['\x7d'])

/-- Comma-separated rendering of a JSON array's elements. -/
def Json.stringifyCharsList : List Json → List Char
  | [] => []
  | [j] => Json.stringifyChars j
  | j :: rest => Json.stringifyChars j ++ ',' :: Json.stringifyCharsList rest

/-- Comma-separated rendering of a JSON object's fields. -/
def Json.stringifyCharsFields : List (String × Json) → List Char
  | [] => []
  | [(k, v)] =>
      '"' :: (k.data.foldr (fun c acc => escChar c ++ acc)
        ('"' :: ':' :: Json.stringifyChars v))
  | (k, v) :: rest =>
      ('"' :: (k.data.foldr (fun c acc => escChar c ++ acc)
        ('"' :: ':' :: Json.stringifyChars v)))
      ++ ',' :: Json.stringifyCharsFields rest

end

/-- `JSON.stringify` as used by the client to persist `auth.user`. -/
def Json.stringify (j : Json) : String := ⟨Json.stringifyChars j⟩

mutual

/-- JavaScript string coercion `String(v)` of a JSON value, as performed by
`localStorage.setItem` and `new Error(...)` on non-string arguments. -/
def jsToString : Json → String
  | .null => "null"
  | .bool b => if b then "true" else "false"
  | .num n => ⟨intToChars n⟩
  | .str s => s
  | .arr xs => ⟨jsArrChars xs⟩
  | .obj _ => "[object Object]"

/-- `Array.prototype.toString`: elements joined by commas, with `null`
elements rendered as the empty string. -/
def jsArrChars : List Json → List Char
  | [] => []
  | [j] => jsElemChars j
  | j :: rest => jsElemChars j ++ ',' :: jsArrChars rest

/-- One array element under `Array.prototype.toString`. -/
def jsElemChars : Json → List Char
  | .null => []
  | .bool b => if b then "true".data else "false".data
  | .num n => intToChars n
  | .str s => s.data
  | .arr xs => jsArrChars xs
  | .obj _ => "[object Object]".data

end

/-- The browser `localStorage` slice used by the client session cache:
the `auth.token` and `auth.user` keys (`none` = key absent; `auth.user`
holds the raw JSON text written by `JSON.stringify`). -/
structure ClientStorage where
  authToken : Option String
  authUser : Option String
deriving DecidableEq, Repr

/-- Fresh browser storage (both keys absent). -/
def emptyStorage : ClientStorage := { authToken := none, authUser := none }

/-- Outcome of a `fetch` call as observed by the client: either the promise
rejects (network failure), or a response arrives with its `ok` flag, status
code, body text, and the result of `JSON.parse` on that text (`none` when
the parse would throw). -/
inductive FetchOutcome where
  | netError (msg : String)
  | response (ok : Bool) (status : Nat) (raw : String) (parsed : Option Json)

/-- The JSON body of an outgoing request, as an ordered field list. -/
structure HttpRequest where
  url : String
  bodyFields : List (String × Json)

/-- The login form state `values` in `pages/login.jsx`. -/
structure LoginValues where
  email : String
  password : String
  remember : Bool
deriving DecidableEq, Repr

/-- `validate` in `pages/login.jsx` (lines 67-72). -/
def Login.validate (v : LoginValues) : String :=
  if v.email = "" || v.password = "" then "Please enter both email and password."
  else if !(emailReTest v.email) then "Please enter a valid email address."
  else ""

/-- `const serverMessage = parsed?.message || (raw ? raw : null)` in
`pages/login.jsx` (line 103): the truthy `message` field of the parsed body
if any, else the raw body text if nonempty, else null. -/
def serverMessage (parsed : Option Json) (raw : String) : Option String :=
  let fallback : Option String := if raw = "" then none else some raw
  match parsed with
  | some p =>
    match p.lookup "message" with
    | some m => if m.truthy then some (jsToString m) else fallback
    | none => fallback
  | none => fallback

/-- Result of one run of the login submit handler: the storage afterwards,
the window events dispatched, the `error` state, the form `values` state
(never written by `handleSubmit`), the request that went out (if any), and
whether the success path was taken. -/
structure LoginResult where
  storage : ClientStorage
  events : List String
  error : String
  values : LoginValues
  requestSent : Option HttpRequest
  success : Bool

/-- `handleSubmit` in `pages/login.jsx` (lines 85-132).  `safeFetchJson`
(lines 75-83) is inlined: an empty body text yields `parsed = null`.
The success path writes `auth.token`, writes `auth.user` (the response
`user` if truthy, else `{email}` from the form), and dispatches
`authChange`; every throwing path is caught at line 128 and only sets the
error message. -/
def Login.handleSubmit (v : LoginValues) (st : ClientStorage)
    (out : FetchOutcome) : LoginResult :=
  let vErr := Login.validate v
  if vErr ≠ "" then
    { storage := st, events := [], error := vErr, values := v,
      requestSent := none, success := false }
  else
    let req : HttpRequest :=
      { url := "http://localhost:5000/api/auth/login",
        bodyFields := [("email", Json.str v.email),
                       ("password", Json.str v.password)] }
    match out with
    | .netError m =>
      { storage := st, events := [], error := m, values := v,
        requestSent := some req, success := false }
    | .response ok status raw parsedRaw =>
      let parsed : Option Json := if raw = "" then none else parsedRaw
      if !ok then
        { storage := st, events := [],
          error := (serverMessage parsed raw).getD
            ("Login failed (" ++ toString status ++ ")"),
          values := v, requestSent := some req, success := false }
      else if !(jsOptTruthy parsed) then
        { storage := st, events := [],
          error := "Server returned non-JSON success response: " ++
            (if raw = "" then "<empty body>" else raw),
          values := v, requestSent := some req, success := false }
      else
        let p := parsed.getD Json.null
        match p.lookup "token" with
        | some t =>
          if t.truthy then
            { storage :=
                { authToken := some (jsToString t),
                  authUser := some (Json.stringify
                    (match p.lookup "user" with
                     | some u =>
                       if u.truthy then u
                       else Json.obj [("email", Json.str v.email)]
                     | none => Json.obj [("email", Json.str v.email)])) },
              events := ["authChange"], error := "", values := v,
              requestSent := some req, success := true }
          else
            { storage := st, events := [],
              error := (match p.lookup "message" with
                | some m => if m.truthy then jsToString m
                            else "No token returned from server"
                | none => "No token returned from server"),
              values := v, requestSent := some req, success := false }
        | none =>
          { storage := st, events := [],
            error := (match p.lookup "message" with
              | some m => if m.truthy then jsToString m
                          else "No token returned from server"
              | none => "No token returned from server"),
            values := v, requestSent := some req, success := false }

/-- The register form state `values` in `pages/Register.jsx`. -/
structure RegisterValues where
  name : String
  email : String
  password : String
  confirm : String
deriving DecidableEq, Repr

/-- `validate` in `pages/Register.jsx` (lines 43-51): required fields, then
password length, then password confirmation, then email shape. -/
def Register.validate (v : RegisterValues) : String :=
  if v.name = "" || v.email = "" || v.password = "" || v.confirm = "" then
    "All fields are required!"
  else if jsLength v.password < 6 then "Password must be at least 6 characters."
  else if v.password ≠ v.confirm then "Passwords do not match."
  else if !(emailReTest v.email) then "Please enter a valid email address."
  else ""

/-- `validate` of the simplified register modal that follows the `Home`
component in `pages/Home.jsx` (lines 46-56 of that component): required
fields (name and email after `trim()`), then email shape, then password
length, then password confirmation. -/
def HomeRegister.validate (v : RegisterValues) : String :=
  if jsTrim v.name = "" || jsTrim v.email = "" || v.password = "" ||
      v.confirm = "" then
    "Please fill all fields."
  else if !(emailReTest v.email) then "Please enter a valid email."
  else if jsLength v.password < 6 then "Password must be at least 6 characters."
  else if v.password ≠ v.confirm then "Passwords do not match."
  else ""

/-- The message of the `TypeError` thrown by reading `.message` on a `null`
body value (`data.message` when `JSON.parse` returned `null`); the platform
text is modelled without its quotation marks. -/
def nullMemberError : String :=
  "Cannot read properties of null (reading message)"

/-- Result of one run of the register submit handler. -/
structure RegisterResult where
  storage : ClientStorage
  events : List String
  error : String
  success : String
  values : RegisterValues
  requestSent : Option HttpRequest

/-- `handleSubmit` in `pages/Register.jsx` (lines 53-95).  The body text is
parsed with `data = text ? JSON.parse(text) : {}` and a parse failure yields
`{message: text}`; a non-ok response throws `data.message || "Registration
failed"`; the success path only sets the success banner and resets the form
fields — it never touches `localStorage` and dispatches no event. -/
def Register.handleSubmit (v : RegisterValues) (st : ClientStorage)
    (out : FetchOutcome) : RegisterResult :=
  let vErr := Register.validate v
  if vErr ≠ "" then
    { storage := st, events := [], error := vErr, success := "",
      values := v, requestSent := none }
  else
    let req : HttpRequest :=
      { url := "https://mern-auth-login-register.onrender.com/api/auth/register",
        bodyFields := [("name", Json.str v.name),
                       ("email", Json.str v.email),
                       ("password", Json.str v.password)] }
    match out with
    | .netError m =>
      { storage := st, events := [], error := m, success := "",
        values := v, requestSent := some req }
    | .response ok _status raw parsedRaw =>
      let data : Json :=
        if raw = "" then Json.obj []
        else match parsedRaw with
          | some j => j
          | none => Json.obj [("message", Json.str raw)]
      if !ok then
        { storage := st, events := [],
          error := (match data with
            | .null => nullMemberError
            | _ => match data.lookup "message" with
              | some m => if m.truthy then jsToString m
                          else "Registration failed"
              | none => "Registration failed"),
          success := "", values := v, requestSent := some req }
      else
        { storage := st, events := [], error := "",
          success := "Account created successfully! Redirecting to sign in...",
          values := { name := "", email := "", password := "", confirm := "" },
          requestSent := some req }

/-- Result of the Navbar logout handler: storage, dispatched events, and the
component's `user` state afterwards. -/
structure LogoutResult where
  storage : ClientStorage
  events : List String
  userState : Json

/-- `handleLogout` in `components/Navbar.jsx` (lines 67-75): removes both
storage keys, dispatches `authChange`, sets the local `user` state to null. -/
def Navbar.handleLogout (_st : ClientStorage) : LogoutResult :=
  { storage := { authToken := none, authUser := none },
    events := ["authChange"], userState := Json.null }

/-- The `useState` initializer for `user` in `components/Navbar.jsx`
(lines 19-26): read `auth.user`, parse it, and fall back to null on absence
or a parse failure (the `try`/`catch`).  `parse` is the platform
`JSON.parse`, returning `none` where it would throw. -/
def Navbar.initUser (parse : String → Option Json) (st : ClientStorage) : Json :=
  match st.authUser with
  | none => Json.null
  | some raw =>
    if raw = "" then Json.null
    else match parse raw with
      | some j => j
      | none => Json.null

/-- `onAuthChange` in `components/Navbar.jsx` (lines 46-53): the `user`
state set by the `storage`/`authChange` listener — the same guarded read of
`auth.user`. -/
def Navbar.onAuthChange (parse : String → Option Json) (st : ClientStorage) :
    Json :=
  match st.authUser with
  | none => Json.null
  | some raw =>
    if raw = "" then Json.null
    else match parse raw with
      | some j => j
      | none => Json.null

/-- The desktop actions block of `components/Navbar.jsx` (lines 117-156)
renders the logged-in view (user label, online dot, Logout button) exactly
when `!user` is false, i.e. when the `user` state is truthy. -/
def Navbar.showsLoggedIn (user : Json) : Bool := user.truthy

/-- The `useState` initializer for `user` in `context/AuthContext.jsx`
(lines 21-28): identical guarded read of `auth.user`. -/
def AuthContext.initUser (parse : String → Option Json) (st : ClientStorage) :
    Json :=
  match st.authUser with
  | none => Json.null
  | some raw =>
    if raw = "" then Json.null
    else match parse raw with
      | some j => j
      | none => Json.null

/-- Result of an `AuthContext` operation: storage after the provider's sync
effects have run, dispatched window events, and the returned
`{ok, message}` value. -/
structure ContextResult where
  storage : ClientStorage
  events : List String
  ok : Bool
  message : String
  requestSent : Option HttpRequest

/-- `login` in `context/AuthContext.jsx` (lines 42-63) combined with the two
persistence effects (lines 32-40): on success, `setToken(data.token)` and
`setUser(data.user || {email})` run, after which the effects write
`auth.token` when the token is truthy (remove it otherwise) and write the
serialized user.  `res.json()` throwing (empty or unparseable body) and a
non-ok status both land in the catch and leave storage untouched.
`jsonErrMsg` is the platform text of the `res.json()` SyntaxError.  No
`authChange` event is dispatched anywhere in this module. -/
def AuthContext.login (email password : String) (st : ClientStorage)
    (out : FetchOutcome) (jsonErrMsg : String) : ContextResult :=
  let req : HttpRequest :=
    { url := "/api/auth/login",
      bodyFields := [("email", Json.str email),
                     ("password", Json.str password)] }
  match out with
  | .netError m =>
    { storage := st, events := [], ok := false, message := m,
      requestSent := some req }
  | .response ok _status raw parsedRaw =>
    match (if raw = "" then none else parsedRaw) with
    | none =>
      { storage := st, events := [], ok := false, message := jsonErrMsg,
        requestSent := some req }
    | some data =>
      if !ok then
        { storage := st, events := [], ok := false,
          message := (match data with
            | .null => nullMemberError
            | _ => match data.lookup "message" with
              | some m => if m.truthy then jsToString m else "Login failed"
              | none => "Login failed"),
          requestSent := some req }
      else
        match data with
        | .null =>
          { storage := st, events := [], ok := false,
            message := nullMemberError, requestSent := some req }
        | _ =>
          let userVal : Json :=
            match data.lookup "user" with
            | some u => if u.truthy then u
                        else Json.obj [("email", Json.str email)]
            | none => Json.obj [("email", Json.str email)]
          { storage :=
              { authToken :=
                  match data.lookup "token" with
                  | some t => if t.truthy then some (jsToString t) else none
                  | none => none,
                authUser := some (Json.stringify userVal) },
            events := [], ok := true, message := "",
            requestSent := some req }

/-- `register` in `context/AuthContext.jsx` (lines 65-81): posts the
payload, maps the response to `{ok, message}`, and never touches the token
or user state, hence never touches storage and dispatches nothing. -/
def AuthContext.registerUser (payload : List (String × Json))
    (st : ClientStorage) (out : FetchOutcome) (jsonErrMsg : String) :
    ContextResult :=
  let req : HttpRequest := { url := "/api/auth/register", bodyFields := payload }
  match out with
  | .netError m =>
    { storage := st, events := [], ok := false, message := m,
      requestSent := some req }
  | .response ok _status raw parsedRaw =>
    match (if raw = "" then none else parsedRaw) with
    | none =>
      { storage := st, events := [], ok := false, message := jsonErrMsg,
        requestSent := some req }
    | some data =>
      if !ok then
        { storage := st, events := [], ok := false,
          message := (match data with
            | .null => nullMemberError
            | _ => match data.lookup "message" with
              | some m => if m.truthy then jsToString m
                          else "Registration failed"
              | none => "Registration failed"),
          requestSent := some req }
      else
        { storage := st, events := [], ok := true, message := "",
          requestSent := some req }

/-- `logout` in `context/AuthContext.jsx` (lines 83-88): sets both states to
null and removes both storage keys.  It dispatches no event. -/
def AuthContext.logout (_st : ClientStorage) : LogoutResult :=
  { storage := { authToken := none, authUser := none },
    events := [], userState := Json.null }

/-- Per-form submission state: the React `loading` flag and the number of
requests currently in flight for this form. -/
structure FormMachine where
  loading : Bool
  inFlight : Nat
deriving DecidableEq, Repr

/-- A form's lifecycle events: a user submission attempt (carrying the
current `validate()` result) or the settlement of an in-flight request. -/
inductive FormEvent where
  | submit (vErr : String)
  | complete
deriving DecidableEq, Repr

/-- Initial form state: `useState(false)` for `loading`, nothing in flight. -/
def formInit : FormMachine := { loading := false, inFlight := 0 }

/-- The `disabled={loading}` attribute on the submit buttons
(`pages/login.jsx` line 276, `pages/Register.jsx` line 206). -/
def submitDisabled (loading : Bool) : Bool := loading

/-- One transition of a form.  A submit on a disabled control fires no
handler (browser semantics of `disabled`); a handler run returns before
`setLoading(true)` when `validate()` fails; otherwise `setLoading(true)`
runs synchronously before `fetch` starts a request.  A settlement runs the
`catch`/`finally`/success code, all of which call `setLoading(false)`
(`pages/login.jsx` lines 124 and 129, `pages/Register.jsx` line 93). -/
def formStep (m : FormMachine) : FormEvent → FormMachine
  | .submit vErr =>
    if submitDisabled m.loading then m
    else if vErr ≠ "" then m
    else { loading := true, inFlight := m.inFlight + 1 }
  | .complete =>
    if m.inFlight = 0 then m
    else { loading := false, inFlight := m.inFlight - 1 }

/-- A run of a form from its mount state. -/
def formRun (evs : List FormEvent) : FormMachine := evs.foldl formStep formInit

/-- The client-session-cache mutations the frontend can perform. -/
inductive SessionOp where
  | loginSubmit (v : LoginValues) (out : FetchOutcome)
  | registerSubmit (v : RegisterValues) (out : FetchOutcome)
  | navbarLogout
  | contextLogout
  | contextLogin (email password : String) (out : FetchOutcome)
      (jsonErrMsg : String)
  | contextRegister (payload : List (String × Json)) (out : FetchOutcome)
      (jsonErrMsg : String)

/-- The storage left behind by one session operation. -/
def applyOp (st : ClientStorage) : SessionOp → ClientStorage
  | .loginSubmit v out => (Login.handleSubmit v st out).storage
  | .registerSubmit v out => (Register.handleSubmit v st out).storage
  | .navbarLogout => (Navbar.handleLogout st).storage
  | .contextLogout => (AuthContext.logout st).storage
  | .contextLogin e p out m => (AuthContext.login e p st out m).storage
  | .contextRegister pl out m =>
      (AuthContext.registerUser pl st out m).storage

/-- Storage reached from a fresh browser by a sequence of session
operations. -/
def runOps (ops : List SessionOp) : ClientStorage :=
  ops.foldl applyOp emptyStorage

/-- A `contextLogin` is token-safe when its success response cannot reach
the state-setting code with a falsy `data.token`: the response fails, or its
body does not parse, or the parsed body carries a truthy `token`.  Every
other operation is unconditionally token-safe. -/
def SessionOp.tokenSafe : SessionOp → Prop
  | .contextLogin _ _ (.response true _ raw (some data)) _ =>
      raw = "" ∨ data = Json.null ∨ jsOptTruthy (data.lookup "token") = true
  | _ => True

/-! ## Theorems -/

/-- A password shorter than 6 UTF-16 units makes `Register.validate`
return a nonempty error. -/
theorem registerValidate_ne_empty_of_short (v : RegisterValues)
    (h : jsLength v.password < 6) : Register.validate v ≠ "" := by
  unfold Register.validate
  split <;> decide

/-- A password shorter than 6 UTF-16 units makes `HomeRegister.validate`
return a nonempty error. -/
theorem homeRegisterValidate_ne_empty_of_short (v : RegisterValues)
    (h : jsLength v.password < 6) : HomeRegister.validate v ≠ "" := by
  unfold HomeRegister.validate
  split
  · decide
  · split <;> decide

/-- Claim C1: a registration submission whose password has fewer than 6
characters is rejected by client-side validation before any network request
is sent (no request leaves `Register.handleSubmit`, and both register
variants' `validate` return an error); when the checks preceding the length
check pass, that error is exactly the password-too-short message; and a
password of 6 or more characters never trips the length check. -/
theorem C1_register_password_min_length (v : RegisterValues)
    (st : ClientStorage) (out : FetchOutcome) :
    (jsLength v.password < 6 →
      (Register.handleSubmit v st out).requestSent = none ∧
      Register.validate v ≠ "" ∧ HomeRegister.validate v ≠ "") ∧
    (v.name ≠ "" → v.email ≠ "" → v.password ≠ "" → v.confirm ≠ "" →
      jsLength v.password < 6 →
      Register.validate v = "Password must be at least 6 characters.") ∧
    (jsTrim v.name ≠ "" → jsTrim v.email ≠ "" → v.password ≠ "" →
      v.confirm ≠ "" → emailReTest v.email = true → jsLength v.password < 6 →
      HomeRegister.validate v = "Password must be at least 6 characters.") ∧
    (6 ≤ jsLength v.password →
      Register.validate v ≠ "Password must be at least 6 characters." ∧
      HomeRegister.validate v ≠ "Password must be at least 6 characters.") := by
  refine ⟨fun h => ⟨?_, registerValidate_ne_empty_of_short v h,
      homeRegisterValidate_ne_empty_of_short v h⟩, ?_, ?_, ?_⟩
  · have hne := registerValidate_ne_empty_of_short v h
    unfold Register.handleSubmit
    rw [if_pos hne]
  · intro h1 h2 h3 h4 h5
    unfold Register.validate
    rw [if_neg (by simp [h1, h2, h3, h4]), if_pos h5]
  · intro h1 h2 h3 h4 h5 h6
    unfold HomeRegister.validate
    rw [if_neg (by simp [h1, h2, h3, h4]), if_neg (by simp [h5]), if_pos h6]
  · intro h
    constructor
    · unfold Register.validate
      split
      · decide
      · split
        · omega
        · split
          · decide
          · split <;> decide
    · unfold HomeRegister.validate
      split
      · decide
      · split
        · decide
        · split
          · omega
          · split <;> decide

/-- Witness for C1 at the spec's Scenario E registration
`{name: Jane, email: jane@x.com, password: ab}`. -/
theorem C1_register_password_min_length_witness :
    jsLength ("ab" : String) < 6 ∧
    (Register.handleSubmit ⟨"Jane", "jane@x.com", "ab", "ab"⟩ emptyStorage
      (.netError "x")).requestSent = none ∧
    Register.validate ⟨"Jane", "jane@x.com", "ab", "ab"⟩ =
      "Password must be at least 6 characters." ∧
    HomeRegister.validate ⟨"Jane", "jane@x.com", "ab", "ab"⟩ =
      "Password must be at least 6 characters." := by
  refine ⟨by decide, ?_, ?_, ?_⟩
  · exact ((C1_register_password_min_length ⟨"Jane", "jane@x.com", "ab", "ab"⟩
      emptyStorage (.netError "x")).1 (by decide)).1
  · exact (C1_register_password_min_length ⟨"Jane", "jane@x.com", "ab", "ab"⟩
      emptyStorage (.netError "x")).2.1
      (by decide) (by decide) (by decide) (by decide) (by decide)
  · exact (C1_register_password_min_length ⟨"Jane", "jane@x.com", "ab", "ab"⟩
      emptyStorage (.netError "x")).2.2.1
      (by decide) (by decide) (by decide) (by decide) (by decide) (by decide)

/-- Case analysis of the login submit handler: every run either fails —
leaving storage untouched and dispatching nothing — or succeeds, dispatching
exactly `authChange` and leaving a token plus the serialization of a truthy
user value in storage. -/
theorem Login.handleSubmit_main_cases (v : LoginValues) (st : ClientStorage)
    (out : FetchOutcome) :
    ((Login.handleSubmit v st out).storage = st ∧
     (Login.handleSubmit v st out).events = [] ∧
     (Login.handleSubmit v st out).success = false) ∨
    ((Login.handleSubmit v st out).success = true ∧
     (Login.handleSubmit v st out).events = ["authChange"] ∧
     ∃ ts u, Json.truthy u = true ∧
       (Login.handleSubmit v st out).storage =
         { authToken := some ts, authUser := some (Json.stringify u) }) := by
  rcases out with m | ⟨ok, status, raw, parsedRaw⟩
  · unfold Login.handleSubmit
    dsimp only
    split
    · exact Or.inl ⟨rfl, rfl, rfl⟩
    · exact Or.inl ⟨rfl, rfl, rfl⟩
  · unfold Login.handleSubmit
    dsimp only
    repeat' split
    all_goals
      first
      | exact Or.inl ⟨rfl, rfl, rfl⟩
      | exact Or.inr ⟨rfl, rfl, _, _, by assumption, rfl⟩
      | exact Or.inr ⟨rfl, rfl, _, Json.obj [("email", Json.str v.email)],
          rfl, rfl⟩

/-- Claim C4: every failed login attempt — validation failure, network
error, non-ok HTTP status, a success response whose body is not (truthy)
JSON, or a parsed body lacking a truthy token — leaves the client session
cache completely unchanged and dispatches no `authChange` event.  The first
conjunct covers all failures at once (the handler reports `success = false`
exactly on the throwing paths); the remaining conjuncts show that each
failure class named by the claim does yield `success = false`. -/
theorem C4_login_failure_no_cache_write (v : LoginValues) (st : ClientStorage)
    (out : FetchOutcome) :
    ((Login.handleSubmit v st out).success = false →
      (Login.handleSubmit v st out).storage = st ∧
      (Login.handleSubmit v st out).events = []) ∧
    (∀ status raw parsedRaw,
      (Login.handleSubmit v st (.response false status raw parsedRaw)).success
        = false) ∧
    (∀ status raw parsedRaw,
      jsOptTruthy (if raw = "" then none else parsedRaw) = false →
      (Login.handleSubmit v st (.response true status raw parsedRaw)).success
        = false) ∧
    (∀ status raw p, Json.lookup p "token" = none →
      (Login.handleSubmit v st (.response true status raw (some p))).success
        = false) := by
  refine ⟨?_, ?_, ?_, ?_⟩
  · intro h
    rcases Login.handleSubmit_main_cases v st out with ⟨h1, h2, _⟩ | ⟨h1, _, _⟩
    · exact ⟨h1, h2⟩
    · rw [h] at h1; cases h1
  · intro status raw parsedRaw
    unfold Login.handleSubmit
    dsimp only
    repeat' split
    all_goals first | rfl | simp_all [Json.lookup]
  · intro status raw parsedRaw hp
    unfold Login.handleSubmit
    dsimp only
    repeat' split
    all_goals first | rfl | simp_all [Json.lookup]
  · intro status raw p hp
    unfold Login.handleSubmit
    dsimp only
    repeat' split
    all_goals first | rfl | simp_all [Json.lookup]

/-- Witness for C4: a 401 login attempt against a populated cache leaves it
intact and dispatches nothing. -/
theorem C4_login_failure_no_cache_write_witness :
    (Login.handleSubmit ⟨"jane@x.com", "wrong1", false⟩
        ⟨some "t", some "u"⟩
        (.response false 401 "m"
          (some (Json.obj [("message", Json.str "Invalid credentials")])))).success
      = false ∧
    (Login.handleSubmit ⟨"jane@x.com", "wrong1", false⟩
        ⟨some "t", some "u"⟩
        (.response false 401 "m"
          (some (Json.obj [("message", Json.str "Invalid credentials")])))).storage
      = ⟨some "t", some "u"⟩ ∧
    (Login.handleSubmit ⟨"jane@x.com", "wrong1", false⟩
        ⟨some "t", some "u"⟩
        (.response false 401 "m"
          (some (Json.obj [("message", Json.str "Invalid credentials")])))).events
      = [] := by
  have h := (C4_login_failure_no_cache_write ⟨"jane@x.com", "wrong1", false⟩
    ⟨some "t", some "u"⟩
    (.response false 401 "m"
      (some (Json.obj [("message", Json.str "Invalid credentials")])))).1
    (by decide)
  exact ⟨by decide, h.1, h.2⟩

/-- Claim C5: a successful (indeed, any) run of the register flow issues no
token and writes nothing to the client session cache — both the register
modal's submit handler and the AuthContext `register` operation leave
`auth.token` and `auth.user` exactly as they were and dispatch no event;
becoming authenticated requires a separate login. -/
theorem C5_register_writes_no_session (v : RegisterValues) (st : ClientStorage)
    (out : FetchOutcome) (payload : List (String × Json)) (st2 : ClientStorage)
    (out2 : FetchOutcome) (m : String) :
    (Register.handleSubmit v st out).storage = st ∧
    (Register.handleSubmit v st out).events = [] ∧
    (AuthContext.registerUser payload st2 out2 m).storage = st2 ∧
    (AuthContext.registerUser payload st2 out2 m).events = [] := by
  refine ⟨?_, ?_, ?_, ?_⟩
  · unfold Register.handleSubmit
    dsimp only
    repeat' split
    all_goals rfl
  · unfold Register.handleSubmit
    dsimp only
    repeat' split
    all_goals rfl
  · unfold AuthContext.registerUser
    dsimp only
    repeat' split
    all_goals rfl
  · unfold AuthContext.registerUser
    dsimp only
    repeat' split
    all_goals rfl

/-- Claim C9: every registration request leaving the register modal is a
POST to the register endpoint whose JSON body holds exactly the fields
`name`, `email` and `password` (in that order); the form's confirm-password
value is not among them. -/
theorem C9_register_body_exact_fields (v : RegisterValues) (st : ClientStorage)
    (out : FetchOutcome) (req : HttpRequest)
    (h : (Register.handleSubmit v st out).requestSent = some req) :
    req.url = "https://mern-auth-login-register.onrender.com/api/auth/register" ∧
    req.bodyFields = [("name", Json.str v.name), ("email", Json.str v.email),
      ("password", Json.str v.password)] ∧
    List.lookup "confirm" req.bodyFields = none := by
  unfold Register.handleSubmit at h
  dsimp only at h
  repeat' split at h
  all_goals first
    | exact Option.noConfusion h
    | (injection h with h; subst h; exact ⟨rfl, rfl, rfl⟩)

/-- Witness for C9 at a concrete valid registration. -/
theorem C9_register_body_exact_fields_witness :
    (Register.handleSubmit ⟨"Jane", "jane@x.com", "secret1", "secret1"⟩
        emptyStorage (.response true 201 "r" (some (Json.obj [])))).requestSent =
      some { url := "https://mern-auth-login-register.onrender.com/api/auth/register",
             bodyFields := [("name", Json.str "Jane"),
                            ("email", Json.str "jane@x.com"),
                            ("password", Json.str "secret1")] } ∧
    List.lookup "confirm"
      [("name", Json.str "Jane"), ("email", Json.str "jane@x.com"),
       ("password", Json.str "secret1")] = none := by
  have h : (Register.handleSubmit ⟨"Jane", "jane@x.com", "secret1", "secret1"⟩
      emptyStorage (.response true 201 "r" (some (Json.obj [])))).requestSent =
    some { url := "https://mern-auth-login-register.onrender.com/api/auth/register",
           bodyFields := [("name", Json.str "Jane"),
                          ("email", Json.str "jane@x.com"),
                          ("password", Json.str "secret1")] } := rfl
  exact ⟨h, (C9_register_body_exact_fields _ _ _ _ h).2.2⟩

/-- Claim C6: every login whose response is a success carrying a truthy
token writes both session fields: `auth.token` receives the token, and
`auth.user` receives the serialized response user when that is truthy, or
the fallback profile `{email}` built from the email entered in the login
form when the response carries no (truthy) user. -/
theorem C6_login_success_writes_both (v : LoginValues) (st : ClientStorage)
    (status : Nat) (raw : String) (p : Json) (t : Json)
    (hv : Login.validate v = "") (hraw : raw ≠ "")
    (hp : Json.truthy p = true)
    (ht : Json.lookup p "token" = some t) (htt : Json.truthy t = true) :
    (Login.handleSubmit v st (.response true status raw (some p))).storage.authToken
      = some (jsToString t) ∧
    (Login.handleSubmit v st (.response true status raw (some p))).success = true ∧
    (∀ u, Json.lookup p "user" = some u → Json.truthy u = true →
      (Login.handleSubmit v st (.response true status raw (some p))).storage.authUser
        = some (Json.stringify u)) ∧
    (jsOptTruthy (Json.lookup p "user") = false →
      (Login.handleSubmit v st (.response true status raw (some p))).storage.authUser
        = some (Json.stringify (Json.obj [("email", Json.str v.email)]))) := by
  unfold Login.handleSubmit
  dsimp only
  rw [if_neg (by simp [hv]), if_neg hraw]
  have hok : (!true) = true ↔ False := by simp
  rw [if_neg (by simp), if_neg (by simp [jsOptTruthy, hp]), Option.getD_some, ht]
  dsimp only
  rw [if_pos htt]
  refine ⟨rfl, rfl, ?_, ?_⟩
  · intro u hu huT
    rw [hu]
    dsimp only
    rw [if_pos huT]
  · intro hfalse
    rcases hcase : Json.lookup p "user" with _ | u
    · rfl
    · rw [hcase] at hfalse
      simp only [jsOptTruthy] at hfalse
      simp [hfalse]

/-- Witness for C6: spec Scenario D — a success response with token and no
user object stores the token and the `{email}` fallback profile. -/
theorem C6_login_success_writes_both_witness :
    (Login.handleSubmit ⟨"jane@x.com", "secret1", false⟩ emptyStorage
        (.response true 200 "r"
          (some (Json.obj [("token", Json.str "tok123")])))).storage.authToken
      = some "tok123" ∧
    (Login.handleSubmit ⟨"jane@x.com", "secret1", false⟩ emptyStorage
        (.response true 200 "r"
          (some (Json.obj [("token", Json.str "tok123")])))).storage.authUser
      = some (Json.stringify (Json.obj [("email", Json.str "jane@x.com")])) := by
  have h := C6_login_success_writes_both ⟨"jane@x.com", "secret1", false⟩
    emptyStorage 200 "r" (Json.obj [("token", Json.str "tok123")])
    (Json.str "tok123") (by decide) (by decide) rfl rfl (by decide)
  exact ⟨h.1, h.2.2.2 rfl⟩

/-- Invariant of a form machine reachable from mount: the number of
in-flight requests is `1` exactly while `loading` is set, `0` otherwise. -/
def FormInv (m : FormMachine) : Prop :=
  m.inFlight = if m.loading then 1 else 0

/-- One form transition preserves the loading/in-flight invariant. -/
theorem formStep_preserves_inv (m : FormMachine) (e : FormEvent)
    (h : FormInv m) : FormInv (formStep m e) := by
  rcases e with vErr | _
  · unfold formStep FormInv submitDisabled at *
    rcases m with ⟨l, n⟩
    rcases l <;> simp_all
    split <;> simp_all
  · unfold formStep FormInv at *
    rcases m with ⟨l, n⟩
    rcases l <;> simp_all

/-- Every run from the mount state satisfies the invariant. -/
theorem formRun_inv (evs : List FormEvent) : FormInv (formRun evs) := by
  unfold formRun
  have hgen : ∀ (l : List FormEvent) (m : FormMachine),
      FormInv m → FormInv (l.foldl formStep m) := by
    intro l
    induction l with
    | nil => intro m hm; exact hm
    | cons e rest ih =>
      intro m hm
      exact ih _ (formStep_preserves_inv m e hm)
  exact hgen evs formInit (by unfold FormInv formInit; simp)

/-- Claim C7: while a login or registration request is in flight the
`loading` flag is set and the form's submit control is disabled, so a
further submission is rejected (a no-op) rather than queued; consequently at
most one request per form is ever in flight. -/
theorem C7_loading_gates_resubmission (evs : List FormEvent) (m : FormMachine)
    (vErr : String) :
    (formRun evs).inFlight ≤ 1 ∧
    (m.loading = true →
      submitDisabled m.loading = true ∧ formStep m (.submit vErr) = m) := by
  constructor
  · have h := formRun_inv evs
    unfold FormInv at h
    split at h <;> omega
  · intro hl
    refine ⟨by simp [submitDisabled, hl], ?_⟩
    simp [formStep, submitDisabled, hl]

/-- Witness for C7: a double submit followed by one settlement never has
two requests in flight, and a submit while loading is a rejected no-op. -/
theorem C7_loading_gates_resubmission_witness :
    (formRun [.submit "", .submit "", .complete]).inFlight ≤ 1 ∧
    submitDisabled true = true ∧
    formStep { loading := true, inFlight := 1 } (.submit "") =
      { loading := true, inFlight := 1 } := by
  have h := C7_loading_gates_resubmission [.submit "", .submit "", .complete]
    { loading := true, inFlight := 1 } ""
  exact ⟨h.1, (h.2 rfl).1, (h.2 rfl).2⟩

/-- Claim C10: reading the cached `auth.user` profile is total and fails
closed — whenever the stored value is absent or is not valid JSON (its
parse throws), the Navbar initializer, the Navbar `storage`/`authChange`
listener, and the AuthContext initializer all yield null (visitor treated
as logged out); being total Lean functions, none of them can throw. -/
theorem C10_user_read_fails_closed (parse : String → Option Json)
    (st : ClientStorage)
    (h : st.authUser = none ∨
      ∃ raw, st.authUser = some raw ∧ parse raw = none) :
    Navbar.initUser parse st = Json.null ∧
    Navbar.onAuthChange parse st = Json.null ∧
    AuthContext.initUser parse st = Json.null := by
  rcases h with h | ⟨raw, hr, hp⟩
  · refine ⟨?_, ?_, ?_⟩
    · unfold Navbar.initUser
      rw [h]
    · unfold Navbar.onAuthChange
      rw [h]
    · unfold AuthContext.initUser
      rw [h]
  · refine ⟨?_, ?_, ?_⟩
    · unfold Navbar.initUser
      rw [hr]
      dsimp only
      by_cases hre : raw = ""
      · rw [if_pos hre]
      · rw [if_neg hre, hp]
    · unfold Navbar.onAuthChange
      rw [hr]
      dsimp only
      by_cases hre : raw = ""
      · rw [if_pos hre]
      · rw [if_neg hre, hp]
    · unfold AuthContext.initUser
      rw [hr]
      dsimp only
      by_cases hre : raw = ""
      · rw [if_pos hre]
      · rw [if_neg hre, hp]

/-- Witness for C10 at a stored `auth.user` value whose parse fails. -/
theorem C10_user_read_fails_closed_witness :
    (∃ raw, (⟨some "t", some "oops"⟩ : ClientStorage).authUser = some raw ∧
      (fun _ => (none : Option Json)) raw = none) ∧
    Navbar.initUser (fun _ => none) ⟨some "t", some "oops"⟩ = Json.null ∧
    Navbar.onAuthChange (fun _ => none) ⟨some "t", some "oops"⟩ = Json.null ∧
    AuthContext.initUser (fun _ => none) ⟨some "t", some "oops"⟩ = Json.null := by
  have h := C10_user_read_fails_closed (fun _ => none)
    ⟨some "t", some "oops"⟩ (Or.inr ⟨"oops", rfl, rfl⟩)
  exact ⟨⟨"oops", rfl, rfl⟩, h.1, h.2.1, h.2.2⟩

/-- Counterexample to claim C2 as stated: the AuthContext `logout` clears
the session cache — a mutation of both keys from present to absent — yet
dispatches no `authChange` event, so observers such as the Navbar are not
notified. -/
theorem C2_authchange_counterexample :
    (AuthContext.logout ⟨some "t", some "u"⟩).storage ≠
      (⟨some "t", some "u"⟩ : ClientStorage) ∧
    (AuthContext.logout ⟨some "t", some "u"⟩).events = [] :=
  ⟨by decide, rfl⟩

/-- Claim C2 amended: the login page's submit handler dispatches exactly one
`authChange` whenever it changes the session cache, and the Navbar logout
clears the cache and dispatches `authChange`; but the AuthContext variant's
`logout` clears the cache without dispatching any event. -/
theorem C2_authchange_amended (v : LoginValues) (st : ClientStorage)
    (out : FetchOutcome) (st2 st3 : ClientStorage) :
    ((Login.handleSubmit v st out).storage ≠ st →
      (Login.handleSubmit v st out).events = ["authChange"]) ∧
    (Navbar.handleLogout st2).events = ["authChange"] ∧
    (Navbar.handleLogout st2).storage = emptyStorage ∧
    (AuthContext.logout st3).events = [] ∧
    (AuthContext.logout st3).storage = emptyStorage := by
  refine ⟨?_, rfl, rfl, rfl, rfl⟩
  intro hne
  rcases Login.handleSubmit_main_cases v st out with ⟨h1, _, _⟩ | ⟨_, h2, _⟩
  · exact absurd h1 hne
  · exact h2

/-- Witness for the amended C2: a concrete successful login mutates the
cache and dispatches `authChange`. -/
theorem C2_authchange_amended_witness :
    (Login.handleSubmit ⟨"jane@x.com", "secret1", false⟩ emptyStorage
      (.response true 200 "r"
        (some (Json.obj [("token", Json.str "tok")])))).storage
      ≠ emptyStorage ∧
    (Login.handleSubmit ⟨"jane@x.com", "secret1", false⟩ emptyStorage
      (.response true 200 "r"
        (some (Json.obj [("token", Json.str "tok")])))).events
      = ["authChange"] := by
  refine ⟨by decide, ?_⟩
  exact (C2_authchange_amended ⟨"jane@x.com", "secret1", false⟩ emptyStorage
    (.response true 200 "r" (some (Json.obj [("token", Json.str "tok")])))
    emptyStorage emptyStorage).1 (by decide)

/-- Case analysis of the register submit handler's form state: a failing
run keeps all entered values (empty success banner), a successful run sets
the banner and resets the fields. -/
theorem Register.handleSubmit_values_cases (v : RegisterValues)
    (st : ClientStorage) (out : FetchOutcome) :
    ((Register.handleSubmit v st out).success = "" ∧
     (Register.handleSubmit v st out).values = v) ∨
    ((Register.handleSubmit v st out).success =
       "Account created successfully! Redirecting to sign in..." ∧
     (Register.handleSubmit v st out).values = ⟨"", "", "", ""⟩) := by
  unfold Register.handleSubmit
  dsimp only
  repeat' split
  all_goals first | exact Or.inl ⟨rfl, rfl⟩ | exact Or.inr ⟨rfl, rfl⟩

/-- Counterexample to claim C8 as stated: a failed login retains the entered
password in the form state — the password field is not cleared.  (The
register modal behaves the same way on failure.) -/
theorem C8_password_not_cleared_counterexample :
    (Login.handleSubmit ⟨"jane@x.com", "secret1", false⟩ emptyStorage
      (.response false 401 "m"
        (some (Json.obj [("message", Json.str "Invalid credentials")])))).success
      = false ∧
    (Login.handleSubmit ⟨"jane@x.com", "secret1", false⟩ emptyStorage
      (.response false 401 "m"
        (some (Json.obj [("message", Json.str "Invalid credentials")])))).values.password
      = "secret1" :=
  ⟨by decide, by decide⟩

/-- Claim C8 amended: when a login or registration attempt fails the form
stays fully populated — including the password fields, which the source
retains rather than clears — and a truthy string `message` from the server's
parsed body is shown verbatim as the form's error text. -/
theorem C8_failure_keeps_form_amended (v : LoginValues) (rv : RegisterValues)
    (st st2 : ClientStorage) (out out2 : FetchOutcome)
    (status status2 : Nat) (raw raw2 : String) (p d : Json) (m m2 : String) :
    ((Login.handleSubmit v st out).success = false →
      (Login.handleSubmit v st out).values = v) ∧
    ((Register.handleSubmit rv st2 out2).success = "" →
      (Register.handleSubmit rv st2 out2).values = rv) ∧
    (Login.validate v = "" → raw ≠ "" →
      Json.lookup p "message" = some (Json.str m) → m ≠ "" →
      (Login.handleSubmit v st (.response false status raw (some p))).error
        = m) ∧
    (Register.validate rv = "" → raw2 ≠ "" → d ≠ Json.null →
      Json.lookup d "message" = some (Json.str m2) → m2 ≠ "" →
      (Register.handleSubmit rv st2 (.response false status2 raw2 (some d))).error
        = m2) := by
  refine ⟨?_, ?_, ?_, ?_⟩
  · intro _
    unfold Login.handleSubmit
    dsimp only
    repeat' split
    all_goals rfl
  · intro h
    rcases Register.handleSubmit_values_cases rv st2 out2 with ⟨_, h2⟩ | ⟨h1, _⟩
    · exact h2
    · rw [h] at h1
      exact absurd h1.symm (by decide)
  · intro hv hraw hm hmne
    unfold Login.handleSubmit
    try dsimp only
    rw [if_neg (by simp [hv])]
    try dsimp only
    rw [if_pos (show (!false) = true from rfl), if_neg hraw]
    unfold serverMessage
    try dsimp only
    rw [hm]
    try dsimp only
    rw [if_pos (show Json.truthy (Json.str m) = true by
      simp [Json.truthy, hmne])]
    rfl
  · intro hv hraw hd hm hmne
    rcases d with _ | b | n | sd | xs | fs
    · exact absurd rfl hd
    · simp [Json.lookup] at hm
    · simp [Json.lookup] at hm
    · simp [Json.lookup] at hm
    · simp [Json.lookup] at hm
    · unfold Register.handleSubmit
      try dsimp only
      rw [if_neg (by simp [hv])]
      try dsimp only
      rw [if_pos (show (!false) = true from rfl), if_neg hraw]
      try dsimp only
      rw [hm]
      try dsimp only
      rw [if_pos (show Json.truthy (Json.str m2) = true by
        simp [Json.truthy, hmne])]
      rfl

/-- Witness for the amended C8: a concrete 401 login keeps the form values
(password included) and shows the server message verbatim. -/
theorem C8_failure_keeps_form_amended_witness :
    (Login.handleSubmit ⟨"jane@x.com", "secret1", false⟩ emptyStorage
      (.response false 401 "m"
        (some (Json.obj [("message", Json.str "Invalid credentials")])))).values
      = ⟨"jane@x.com", "secret1", false⟩ ∧
    (Login.handleSubmit ⟨"jane@x.com", "secret1", false⟩ emptyStorage
      (.response false 401 "m"
        (some (Json.obj [("message", Json.str "Invalid credentials")])))).error
      = "Invalid credentials" := by
  have h := C8_failure_keeps_form_amended ⟨"jane@x.com", "secret1", false⟩
    ⟨"Jane", "jane@x.com", "secret1", "secret1"⟩ emptyStorage emptyStorage
    (.response false 401 "m"
      (some (Json.obj [("message", Json.str "Invalid credentials")])))
    (.netError "x") 401 401 "m" "m"
    (Json.obj [("message", Json.str "Invalid credentials")])
    (Json.obj [("message", Json.str "Invalid credentials")])
    "Invalid credentials" "Invalid credentials"
  exact ⟨h.1 (by decide), h.2.2.1 (by decide) (by decide) rfl (by decide)⟩

/-- Decimal renderings are never empty. -/
theorem natToChars_ne_nil (n : Nat) : natToChars n ≠ [] := by
  unfold natToChars
  split
  · simp
  · simp

/-- Integer renderings are never empty. -/
theorem intToChars_ne_nil (i : Int) : intToChars i ≠ [] := by
  unfold intToChars
  split
  · simp
  · exact natToChars_ne_nil _

/-- `JSON.stringify` never yields the empty character list. -/
theorem Json.stringifyChars_ne_nil (j : Json) : Json.stringifyChars j ≠ [] := by
  cases j with
  | null => unfold Json.stringifyChars; decide
  | bool b => cases b <;> (unfold Json.stringifyChars; decide)
  | num n =>
    have := intToChars_ne_nil n
    simpa [Json.stringifyChars] using this
  | str s => simp [Json.stringifyChars]
  | arr xs => simp [Json.stringifyChars]
  | obj fs => simp [Json.stringifyChars]

/-- `JSON.stringify` never yields the empty string (so a stored `auth.user`
always passes the `raw ?` truthiness guard of the readers). -/
theorem Json.stringify_ne_empty (j : Json) : Json.stringify j ≠ "" := by
  intro h
  have h2 : Json.stringifyChars j = [] := by
    have := congrArg String.data h
    simpa [Json.stringify] using this
  exact Json.stringifyChars_ne_nil j h2

/-- The register modal's submit handler never changes storage. -/
theorem Register.handleSubmit_storage_eq (v : RegisterValues)
    (st : ClientStorage) (out : FetchOutcome) :
    (Register.handleSubmit v st out).storage = st := by
  unfold Register.handleSubmit
  dsimp only
  repeat' split
  all_goals rfl

/-- The AuthContext register operation never changes storage. -/
theorem AuthContext.registerUser_storage_eq (pl : List (String × Json))
    (st : ClientStorage) (out : FetchOutcome) (m : String) :
    (AuthContext.registerUser pl st out m).storage = st := by
  unfold AuthContext.registerUser
  dsimp only
  repeat' split
  all_goals rfl

/-- Session-cache invariant maintained by the client's own mutations: the
token key is present exactly when the user key is, and any stored user text
is the `JSON.stringify` of a truthy value. -/
def StorageInv (st : ClientStorage) : Prop :=
  st.authToken.isSome = st.authUser.isSome ∧
  ∀ s, st.authUser = some s →
    ∃ j, Json.truthy j = true ∧ s = Json.stringify j

/-- Case analysis of a token-safe AuthContext login: it either leaves
storage untouched or stores a token together with the serialization of a
truthy user value. -/
theorem AuthContext.login_storage_cases (e pw : String) (st : ClientStorage)
    (out : FetchOutcome) (msg : String)
    (hsafe : SessionOp.tokenSafe (.contextLogin e pw out msg)) :
    (AuthContext.login e pw st out msg).storage = st ∨
    ∃ ts u, Json.truthy u = true ∧
      (AuthContext.login e pw st out msg).storage =
        { authToken := some ts, authUser := some (Json.stringify u) } := by
  rcases out with m | ⟨ok, status, raw, parsedRaw⟩
  · exact Or.inl rfl
  · cases ok with
    | false =>
      unfold AuthContext.login
      dsimp only
      repeat' split
      all_goals first | exact Or.inl rfl | simp_all
    | true =>
      unfold AuthContext.login
      dsimp only
      by_cases hraw : raw = ""
      · rw [if_pos hraw]
        exact Or.inl rfl
      · rw [if_neg hraw]
        rcases parsedRaw with _ | data
        · exact Or.inl rfl
        · dsimp only
          rw [if_neg (by decide)]
          simp only [SessionOp.tokenSafe] at hsafe
          rcases data with _ | b | n | sd | xs | fs
          · exact Or.inl rfl
          · rcases hsafe with h | h | h
            · exact absurd h hraw
            · exact Json.noConfusion h
            · simp [jsOptTruthy, Json.lookup] at h
          · rcases hsafe with h | h | h
            · exact absurd h hraw
            · exact Json.noConfusion h
            · simp [jsOptTruthy, Json.lookup] at h
          · rcases hsafe with h | h | h
            · exact absurd h hraw
            · exact Json.noConfusion h
            · simp [jsOptTruthy, Json.lookup] at h
          · rcases hsafe with h | h | h
            · exact absurd h hraw
            · exact Json.noConfusion h
            · simp [jsOptTruthy, Json.lookup] at h
          · rcases hsafe with h | h | h
            · exact absurd h hraw
            · exact Json.noConfusion h
            · rcases hl : (Json.obj fs).lookup "token" with _ | t
              · rw [hl] at h
                simp [jsOptTruthy] at h
              · rw [hl] at h
                simp only [jsOptTruthy] at h
                refine Or.inr ?_
                try dsimp only
                rw [if_pos h]
                rcases hu : (Json.obj fs).lookup "user" with _ | u
                · exact ⟨jsToString t,
                    Json.obj [("email", Json.str e)], rfl, rfl⟩
                · try dsimp only
                  by_cases huT : Json.truthy u = true
                  · rw [if_pos huT]
                    exact ⟨jsToString t, u, huT, rfl⟩
                  · rw [if_neg huT]
                    exact ⟨jsToString t,
                      Json.obj [("email", Json.str e)], rfl, rfl⟩

/-- Every token-safe session operation preserves the session-cache
invariant. -/
theorem applyOp_preserves_inv (st : ClientStorage) (op : SessionOp)
    (hop : op.tokenSafe) (h : StorageInv st) : StorageInv (applyOp st op) := by
  rcases op with ⟨v, out⟩ | ⟨v, out⟩ | _ | _ | ⟨e, pw, out, msg⟩ | ⟨pl, out, msg⟩
  · rcases Login.handleSubmit_main_cases v st out with
      ⟨h1, _, _⟩ | ⟨_, _, ts, u, hu, h2⟩
    · simp only [applyOp]
      rw [h1]
      exact h
    · simp only [applyOp]
      rw [h2]
      refine ⟨rfl, ?_⟩
      intro s hs
      injection hs with hs
      exact ⟨u, hu, hs.symm⟩
  · simp only [applyOp]
    rw [Register.handleSubmit_storage_eq]
    exact h
  · simp only [applyOp, Navbar.handleLogout]
    exact ⟨rfl, fun s hs => Option.noConfusion hs⟩
  · simp only [applyOp, AuthContext.logout]
    exact ⟨rfl, fun s hs => Option.noConfusion hs⟩
  · rcases AuthContext.login_storage_cases e pw st out msg hop with
      h1 | ⟨ts, u, hu, h2⟩
    · simp only [applyOp]
      rw [h1]
      exact h
    · simp only [applyOp]
      rw [h2]
      refine ⟨rfl, ?_⟩
      intro s hs
      injection hs with hs
      exact ⟨u, hu, hs.symm⟩
  · simp only [applyOp]
    rw [AuthContext.registerUser_storage_eq]
    exact h

/-- Any storage reachable from a fresh browser by token-safe session
operations satisfies the session-cache invariant. -/
theorem runOps_inv (ops : List SessionOp)
    (hops : ∀ op ∈ ops, op.tokenSafe) : StorageInv (runOps ops) := by
  unfold runOps
  have hgen : ∀ (l : List SessionOp) (st : ClientStorage),
      (∀ op ∈ l, op.tokenSafe) → StorageInv st →
      StorageInv (l.foldl applyOp st) := by
    intro l
    induction l with
    | nil => intro st _ h; exact h
    | cons op rest ih =>
      intro st hl h
      exact ih _ (fun o ho => hl o (List.mem_cons_of_mem _ ho))
        (applyOp_preserves_inv st op (hl op (List.mem_cons_self _ _)) h)
  exact hgen ops emptyStorage hops ⟨rfl, fun s hs => Option.noConfusion hs⟩

/-- A concrete point of the platform `JSON.parse`, inverting `stringify` on
the single profile that appears in the C3 scenarios. -/
def parseAtProfile : String → Option Json := fun s =>
  if s = Json.stringify (Json.obj [("email", Json.str "jane@x.com")]) then
    some (Json.obj [("email", Json.str "jane@x.com")])
  else none

/-- Counterexample to claim C3 as stated: one AuthContext login against a
success response that carries no token (body `\x7b\x7d`) reaches a storage
with no `auth.token` yet a stored `auth.user` profile, which the Navbar —
whose logged-in view is keyed on `auth.user` — renders as authenticated.
Token absent, visitor considered authenticated: the iff fails. -/
theorem C3_token_iff_authenticated_counterexample :
    (AuthContext.login "jane@x.com" "secret1" emptyStorage
      (.response true 200 "e" (some (Json.obj []))) "err").storage.authToken
      = none ∧
    Navbar.showsLoggedIn (Navbar.onAuthChange parseAtProfile
      (AuthContext.login "jane@x.com" "secret1" emptyStorage
        (.response true 200 "e" (some (Json.obj []))) "err").storage)
      = true :=
  ⟨rfl, by decide⟩

/-- Claim C3 amended: for every storage reachable from a fresh browser via
the client's own mutations — login-form submissions, register submissions,
Navbar logout, AuthContext logout, and AuthContext logins whose success
responses carry a truthy token — the token key is present in storage exactly
when the Navbar UI (reading `auth.user` through `JSON.parse`) considers the
visitor authenticated.  (`hparse` states that `JSON.parse` succeeds with a
truthy value on the stored profile text, which the invariant guarantees is
the `stringify` of a truthy value.)  An AuthContext login whose success
response lacks a token breaks the equivalence, as the counterexample shows. -/
theorem C3_token_iff_authenticated_amended (ops : List SessionOp)
    (parse : String → Option Json)
    (hops : ∀ op ∈ ops, op.tokenSafe)
    (hparse : ∀ s, (runOps ops).authUser = some s →
      ∃ j, parse s = some j ∧ Json.truthy j = true) :
    (runOps ops).authToken.isSome =
      Navbar.showsLoggedIn (Navbar.onAuthChange parse (runOps ops)) := by
  obtain ⟨h1, h2⟩ := runOps_inv ops hops
  unfold Navbar.showsLoggedIn Navbar.onAuthChange
  rcases hu : (runOps ops).authUser with _ | s
  · rw [hu] at h1
    rw [h1]
    rfl
  · rw [hu] at h1
    obtain ⟨j0, _, hs⟩ := h2 s hu
    obtain ⟨j, hpj, hjT⟩ := hparse s hu
    have hne : s ≠ "" := by
      rw [hs]
      exact Json.stringify_ne_empty j0
    dsimp only
    rw [if_neg hne, hpj]
    dsimp only
    rw [h1, hjT]
    rfl

/-- Witness for the amended C3: after one successful login-form submission
the token is present and the Navbar view is authenticated. -/
theorem C3_token_iff_authenticated_amended_witness :
    (runOps [SessionOp.loginSubmit ⟨"jane@x.com", "secret1", false⟩
      (.response true 200 "r"
        (some (Json.obj [("token", Json.str "tok")])))]).authToken.isSome =
    Navbar.showsLoggedIn (Navbar.onAuthChange parseAtProfile
      (runOps [SessionOp.loginSubmit ⟨"jane@x.com", "secret1", false⟩
        (.response true 200 "r"
          (some (Json.obj [("token", Json.str "tok")])))])) := by
  apply C3_token_iff_authenticated_amended
  · intro op hop
    rw [List.mem_singleton] at hop
    subst hop
    simp [SessionOp.tokenSafe]
  · intro s hs
    have h0 : (runOps [SessionOp.loginSubmit ⟨"jane@x.com", "secret1", false⟩
        (.response true 200 "r"
          (some (Json.obj [("token", Json.str "tok")])))]).authUser =
        some (Json.stringify (Json.obj [("email", Json.str "jane@x.com")])) :=
      rfl
    rw [h0] at hs
    injection hs with hs
    subst hs
    refine ⟨Json.obj [("email", Json.str "jane@x.com")], ?_, rfl⟩
    unfold parseAtProfile
    rw [if_pos rfl]

end MernAuth
